import Mathlib

/-!
Verification of the guardrails schema-compilation / validation / reask engine.

The repository ships documentation (notebooks under docs/) whose recorded
cell outputs pin down the observable behaviour of the library: RAIL schema
sources, the compiled base prompts, the compile-time formatter warnings, and
the final validated outputs.  The library implementation itself
(schema compiler, validator registry, output decoder, correction engine and
the Guard orchestrator) is not part of the shown corpus, so those components
are modelled here from the specification and checked against the concrete
data recorded in the notebooks.

Strings are embedded as `List Char` with executable character-level
operations, so every function of the model evaluates inside the kernel.
-/

set_option maxRecDepth 8000

namespace Guardrails

/-- Character strings of the model, kept as raw character lists so all
operations compute by reduction. -/
abbrev Str := List Char

/-- Transcription helper turning a Lean string literal into a model
string. -/
def str (s : String) : Str := s.data

/-- Split a string at every occurrence of a separator character. -/
def splitOnChar (sep : Char) : Str → List Str
  | [] => [[]]
  | c :: r =>
    let rest := splitOnChar sep r
    if c = sep then [] :: rest
    else
      match rest with
      | [] => [[c]]
      | t :: ts => (c :: t) :: ts

/-- Join strings with a separator character. -/
def joinWithChar (c : Char) : List Str → Str
  | [] => []
  | [x] => x
  | x :: r => x ++ c :: joinWithChar c r

/-- Whitespace test used by trimming. -/
def isSpaceChar (c : Char) : Bool := c = ' ' ∨ c = '\n' ∨ c = '\t'

/-- Strip leading and trailing whitespace. -/
def trimStr (s : Str) : Str :=
  ((s.dropWhile isSpaceChar).reverse.dropWhile isSpaceChar).reverse

/-- Lower-case one character. -/
def lowerChar (c : Char) : Char :=
  if 'A' ≤ c ∧ c ≤ 'Z' then Char.ofNat (c.toNat + 32) else c

/-- Upper-case one character. -/
def upperChar (c : Char) : Char :=
  if 'a' ≤ c ∧ c ≤ 'z' then Char.ofNat (c.toNat - 32) else c

/-- Lower-case a string. -/
def toLowerStr (s : Str) : Str := s.map lowerChar

/-- Upper-case a string. -/
def toUpperStr (s : Str) : Str := s.map upperChar

/-- Capitalize a string: first character upper-cased, rest lower-cased. -/
def capitalizeStr : Str → Str
  | [] => []
  | c :: r => upperChar c :: toLowerStr r

/-- Whether `p` is an initial segment of `s`. -/
def startsWithStr (p s : Str) : Bool := s.take p.length = p

/-- Decimal digit value of a character, if any. -/
def digitVal? (c : Char) : Option Nat :=
  if '0' ≤ c ∧ c ≤ '9' then some (c.toNat - 48) else none

/-- Parse a nonempty all-digit string as a natural number. -/
def parseNat? (s : Str) : Option Nat :=
  match s with
  | [] => none
  | _ => go s 0
where
  go : Str → Nat → Option Nat
    | [], acc => some acc
    | c :: r, acc =>
      match digitVal? c with
      | some d => go r (acc * 10 + d)
      | none => none

/-- Parse an optionally-negated decimal integer string. -/
def parseInt? (s : Str) : Option Int :=
  match s with
  | '-' :: r => (parseNat? r).map (fun n => -(n : Int))
  | _ => (parseNat? s).map (fun n => (n : Int))

/-- Decimal rendering of a natural number. -/
def natToStr (n : Nat) : Str := go (n + 1) n
where
  go : Nat → Nat → Str
    | 0, _ => []
    | fuel + 1, n =>
      if n < 10 then [Char.ofNat (48 + n)]
      else go fuel (n / 10) ++ [Char.ofNat (48 + n % 10)]

/-- Scalar kinds recognized by the RAIL schema language. -/
inductive ScalarKind where
  | strK | intK | floatK | boolK | dateK | urlK
deriving DecidableEq

/-- Element tags of the RAIL markup: one per scalar kind plus the two
container kinds. -/
inductive Tag where
  | stringT | integerT | floatT | boolT | dateT | urlT | listT | objectT
deriving DecidableEq

/-- Scalar kind declared by a scalar tag (containers mapped arbitrarily to
`strK`; never consulted for containers). -/
def Tag.kind : Tag → ScalarKind
  | .stringT => .strK
  | .integerT => .intK
  | .floatT => .floatK
  | .boolT => .boolK
  | .dateT => .dateK
  | .urlT => .urlK
  | .listT => .strK
  | .objectT => .strK

/-- Tag name as it appears in the markup. -/
def Tag.render : Tag → Str
  | .stringT => str "string"
  | .integerT => str "integer"
  | .floatT => str "float"
  | .boolT => str "bool"
  | .dateT => str "date"
  | .urlT => str "url"
  | .listT => str "list"
  | .objectT => str "object"

/-- On-fail corrective action attached to one directive. -/
inductive OnFail where
  | noop | filter | fix | reask | exception
deriving DecidableEq

/-- Modelled from the spec: the on-fail attribute values recognized by the
schema compiler (the datatypes module parsing `on-fail-<name>` attributes
is not in the shown corpus). -/
def parseOnFail (s : Str) : OnFail :=
  if s = str "noop" then .noop
  else if s = str "filter" then .filter
  else if s = str "fix" then .fix
  else if s = str "reask" then .reask
  else .exception

/-- A compiled format directive: name, raw parameter tokens, corrective
action. -/
structure Directive where
  name : Str
  params : List Str
  onFail : OnFail
deriving DecidableEq

/-- A RAIL element as parsed from the markup: tag, attributes in source
order, child elements.  The XML parser itself is not in the shown corpus;
schema sources from the notebooks are transcribed into this parsed form. -/
inductive RawElement where
  | mk (tag : Tag) (attrs : List (Str × Str)) (children : List RawElement)

/-- Tag of a raw element. -/
def RawElement.tag : RawElement → Tag
  | .mk t _ _ => t

/-- Attributes of a raw element, in source order. -/
def RawElement.attrs : RawElement → List (Str × Str)
  | .mk _ a _ => a

/-- Children of a raw element, in source order. -/
def RawElement.children : RawElement → List RawElement
  | .mk _ _ c => c

/-- First value bound to attribute key `k`. -/
def findAttr (attrs : List (Str × Str)) (k : Str) : Option Str :=
  (attrs.find? (fun kv => kv.1 = k)).map (fun kv => kv.2)

/-- Attribute value with default empty string. -/
def getAttr (attrs : List (Str × Str)) (k : Str) : Str :=
  (findAttr attrs k).getD []

/-- Modelled from the spec: one token of a format attribute, optionally
carrying parameters after a colon.  `"length: 200 240"` parses to
`("length", ["200", "240"])`. -/
def parseFormatToken (tok : Str) : Option (Str × List Str) :=
  match splitOnChar ':' tok with
  | [] => none
  | n :: rest =>
    let nm := trimStr n
    if nm = [] then none
    else
      let ps := splitOnChar ' ' (joinWithChar ':' rest)
      some (nm, ps.filter (fun p => p ≠ []))

/-- Modelled from the spec: the format attribute is a semicolon-separated
list of directive tokens (`"lower-case; two-words"` in the notebooks). -/
def parseFormat (s : Str) : List (Str × List Str) :=
  (splitOnChar ';' s).filterMap parseFormatToken

/-- Raw (pre-registry) directives declared by an attribute list. -/
def rawDirectives (attrs : List (Str × Str)) : List (Str × List Str) :=
  parseFormat (getAttr attrs (str "format"))

/-- Modelled from the spec: the on-fail action of directive `n` is read
from the `on-fail-<n>` attribute; when the attribute is absent the default
action is `exception`. -/
def dirOnFail (attrs : List (Str × Str)) (n : Str) : OnFail :=
  match findAttr attrs (str "on-fail-" ++ n) with
  | some s => parseOnFail s
  | none => .exception

/-- Whether directive `n` has a validator registered for tag `t`. -/
def registered (reg : List (Str × Tag)) (n : Str) (t : Tag) : Bool :=
  reg.any (fun e => e.1 = n ∧ e.2 = t)

/-- A compile-time warning naming a directive dropped because no validator
is registered for it on the element's tag (notebook stderr:
`Formatter 1-indexed is not valid for element integer.`). -/
structure FormatterWarning where
  directiveName : Str
  tag : Tag
deriving DecidableEq

/-- Modelled from the spec: compile the format attribute of one element,
keeping exactly the directives whose name resolves in the validator
registry for the element's tag. -/
def compileDirectives (reg : List (Str × Tag)) (t : Tag)
    (attrs : List (Str × Str)) : List Directive :=
  (rawDirectives attrs).filterMap (fun d =>
    if registered reg d.1 t then some ⟨d.1, d.2, dirOnFail attrs d.1⟩ else none)

/-- Modelled from the spec: the warnings produced while compiling one
element's format attribute, one per dropped directive. -/
def compileWarnings (reg : List (Str × Tag)) (t : Tag)
    (attrs : List (Str × Str)) : List FormatterWarning :=
  (rawDirectives attrs).filterMap (fun d =>
    if registered reg d.1 t then none else some ⟨d.1, t⟩)

/-- Built-in validator registry, as evidenced by the notebooks:
`1-indexed` is not registered for `integer` and `percentage` is not
registered for `float` (both warned about), while `length`, `valid-url`,
`valid-range` and the string shape checks are accepted without warning. -/
def builtinRegistry : List (Str × Tag) :=
  [(str "length", .stringT), (str "length", .listT), (str "length", .objectT),
   (str "valid-url", .urlT), (str "valid-range", .integerT),
   (str "two-words", .stringT), (str "one-line", .stringT),
   (str "lower-case", .stringT), (str "upper-case", .stringT),
   (str "capitalize", .stringT), (str "1-indexed", .stringT)]

/-- Compiled schema node: a scalar leaf, a list with an optional element
schema, or an object with ordered fields. -/
inductive SchemaNode where
  | scalar (kind : ScalarKind) (name : Str) (required : Bool)
      (dirs : List Directive)
  | listNode (name : Str) (dirs : List Directive) (elem : Option SchemaNode)
  | objectNode (name : Str) (dirs : List Directive)
      (fields : List SchemaNode)

/-- Field name of a schema node. -/
def SchemaNode.nodeName : SchemaNode → Str
  | .scalar _ n _ _ => n
  | .listNode n _ _ => n
  | .objectNode n _ _ => n

/-- Directives of a schema node. -/
def SchemaNode.nodeDirs : SchemaNode → List Directive
  | .scalar _ _ _ d => d
  | .listNode _ d _ => d
  | .objectNode _ d _ => d

/-- Modelled from the spec: compile one parsed RAIL element into a schema
node, dropping unregistered directives. -/
def compileElement (reg : List (Str × Tag)) : RawElement → SchemaNode
  | .mk t attrs children =>
    let dirs := compileDirectives reg t attrs
    match t with
    | .listT => .listNode (getAttr attrs (str "name")) dirs
        (goChildren children).head?
    | .objectT => .objectNode (getAttr attrs (str "name")) dirs
        (goChildren children)
    | _ => .scalar t.kind (getAttr attrs (str "name"))
        (getAttr attrs (str "required") = str "true") dirs
where
  goChildren : List RawElement → List SchemaNode
    | [] => []
    | c :: cs => compileElement reg c :: goChildren cs

/-- Attribute keys carrying corrective-action configuration. -/
def isOnFailKey (k : Str) : Bool := startsWithStr (str "on-fail") k

/-- Modelled from the spec and the recorded base prompts: the element tree
spliced into the prompt at the output-schema placeholder is the parsed
schema source with every `on-fail-<directive>` attribute removed; tag,
name, description, format and required attributes are kept. -/
def cleanElement : RawElement → RawElement
  | .mk t attrs children =>
    .mk t (attrs.filter (fun kv => !(isOnFailKey kv.1))) (goChildren children)
where
  goChildren : List RawElement → List RawElement
    | [] => []
    | c :: cs => cleanElement c :: goChildren cs

/-- Render an attribute list back to markup text. -/
def renderAttrs (attrs : List (Str × Str)) : Str :=
  (attrs.map (fun kv => ' ' :: kv.1 ++ '=' :: '"' :: kv.2 ++ ['"'])).flatten

/-- Serialize an element tree back to markup text. -/
def serializeElement : RawElement → Str
  | .mk t attrs children =>
    match children with
    | [] => '<' :: t.render ++ renderAttrs attrs ++ str "/>"
    | c :: cs =>
      '<' :: t.render ++ renderAttrs attrs ++ str ">" ++
        goChildren (c :: cs) ++ str "</" ++ t.render ++ str ">"
where
  goChildren : List RawElement → Str
    | [] => []
    | c :: cs => serializeElement c ++ goChildren cs

/-- The schema text spliced into a compiled prompt: the cleaned element
tree, serialized. -/
def promptSchemaText (e : RawElement) : Str :=
  serializeElement (cleanElement e)

/-- A decoded value: scalar leaf, list, or object with ordered string
keys.  Floats carry integer part, fractional digits and fractional digit
count (`1.72` is `vfloat 1 72 2`); no float arithmetic is performed.
`vabsent` is the explicit absent-value marker and `vdate` a coerced
calendar date. -/
inductive Value where
  | vstr (s : Str)
  | vint (n : Int)
  | vfloat (whole : Int) (frac : Nat) (fracLen : Nat)
  | vbool (b : Bool)
  | vdate (y m d : Nat)
  | vabsent
  | vlist (xs : List Value)
  | vobj (fields : List (Str × Value))

/-- Value bound to key `k` of an object field list. -/
def objLookup (fs : List (Str × Value)) (k : Str) : Option Value :=
  (fs.find? (fun kv => kv.1 = k)).map (fun kv => kv.2)

/-- A path into a value tree: object keys and decimal list indices. -/
abbrev Path := List Str

/-- Value at a path. -/
def valueAt : Path → Value → Option Value
  | [], v => some v
  | k :: p, .vobj fs => (objLookup fs k).bind (valueAt p)
  | k :: p, .vlist xs =>
    (parseNat? k).bind (fun i => (xs.get? i).bind (valueAt p))
  | _ :: _, _ => none

/-- Replace the value at a path (no-op where the path does not resolve). -/
def setAt : Path → Value → Value → Value
  | [], nv, _ => nv
  | k :: p, nv, .vobj fs =>
    .vobj (fs.map (fun kv => if kv.1 = k then (kv.1, setAt p nv kv.2) else kv))
  | k :: p, nv, .vlist xs =>
    match parseNat? k with
    | some i => .vlist (xs.mapIdx (fun j x => if j = i then setAt p nv x else x))
    | none => .vlist xs
  | _ :: _, _, v => v

/-- Integer parameter `i` of a directive's parameter list. -/
def intParam (ps : List Str) (i : Nat) : Option Int :=
  ((ps.drop i).head?).bind parseInt?

/-- Modelled from the spec: length-bounds check shared by the string-length
and container-cardinality validators; a missing parameter leaves that side
unbounded. -/
def lengthOk (ps : List Str) (n : Nat) : Bool :=
  (match intParam ps 0 with
   | some lo => decide (lo ≤ (n : Int))
   | none => true) &&
  (match intParam ps 1 with
   | some hi => decide ((n : Int) ≤ hi)
   | none => true)

/-- Words of a string, splitting on spaces. -/
def wordCount (s : Str) : Nat :=
  ((splitOnChar ' ' s).filter (fun w => w ≠ [])).length

/-- Modelled from the spec: run one built-in validator on a value.  The
URL reachability probe is external network behaviour, abstracted as the
`net` oracle.  A directive that does not apply to the value's shape
passes. -/
def runValidator (net : Str → Bool) (d : Directive) (v : Value) : Bool :=
  if d.name = str "length" then
    match v with
    | .vstr s => lengthOk d.params s.length
    | .vlist xs => lengthOk d.params xs.length
    | .vobj fs => lengthOk d.params fs.length
    | _ => true
  else if d.name = str "valid-url" then
    match v with
    | .vstr s => net s
    | _ => true
  else if d.name = str "valid-range" then
    match v with
    | .vint n =>
      (match intParam d.params 0 with
       | some lo => decide (lo ≤ n)
       | none => true) &&
      (match intParam d.params 1 with
       | some hi => decide (n ≤ hi)
       | none => true)
    | _ => true
  else if d.name = str "two-words" then
    match v with
    | .vstr s => wordCount s = 2
    | _ => true
  else if d.name = str "one-line" then
    match v with
    | .vstr s => !(s.contains '\n')
    | _ => true
  else if d.name = str "lower-case" then
    match v with
    | .vstr s => toLowerStr s = s
    | _ => true
  else if d.name = str "upper-case" then
    match v with
    | .vstr s => toUpperStr s = s
    | _ => true
  else if d.name = str "capitalize" then
    match v with
    | .vstr s => capitalizeStr s = s
    | _ => true
  else true

/-- Modelled from the spec: the auto-fix value proposed by a validator,
when it has one. -/
def fixValue (d : Directive) (v : Value) : Option Value :=
  match v with
  | .vstr s =>
    if d.name = str "lower-case" then some (.vstr (toLowerStr s))
    else if d.name = str "upper-case" then some (.vstr (toUpperStr s))
    else if d.name = str "capitalize" then some (.vstr (capitalizeStr s))
    else none
  | _ => none

/-- Error message logged for a failing directive. -/
def errMsg (d : Directive) : Str :=
  str "Validation failed for directive " ++ d.name

/-- First failing directive, in declaration order, together with the names
of all validators actually evaluated (every passing directive before the
failure, then the failing one). -/
def firstFail (net : Str → Bool) (v : Value) :
    List Directive → Option Directive × List Str
  | [] => (none, [])
  | d :: ds =>
    if runValidator net d v then
      let r := firstFail net v ds
      (r.1, d.name :: r.2)
    else
      (some d, [d.name])

/-- Outcome of validating one field against its directives. -/
inductive Outcome where
  | valid
  | invalidNoop (msg : Str)
  | invalidFiltered (msg : Str)
  | invalidFixed (fixed : Value) (msg : Str)
  | invalidReask (msg : Str)
  | invalidFatal (msg : Str)

/-- Modelled from the spec: the corrective action applied for the first
failing directive; `fix` degrades to `noop` when the validator proposes
no auto-fix value. -/
def applyAction (d : Directive) (v : Value) : Outcome :=
  match d.onFail with
  | .noop => .invalidNoop (errMsg d)
  | .filter => .invalidFiltered (errMsg d)
  | .fix =>
    match fixValue d v with
    | some f => .invalidFixed f (errMsg d)
    | none => .invalidNoop (errMsg d)
  | .reask => .invalidReask (errMsg d)
  | .exception => .invalidFatal (errMsg d)

/-- Modelled from the spec: validate one field's value against its
directives with first-failure-wins semantics, also reporting which
validators were evaluated. -/
def validateLeaf (net : Str → Bool) (dirs : List Directive) (v : Value) :
    Outcome × List Str :=
  match firstFail net v dirs with
  | (none, tr) => (.valid, tr)
  | (some d, tr) => (applyAction d v, tr)

/-- A reask marker: failing field path, its invalid value, the error. -/
structure Reask where
  path : Path
  value : Value
  message : Str

/-- A fatal validation error naming the failing field path. -/
structure VErr where
  path : Path
  message : Str

/-- Result of one validation pass over a subtree: the corrected value
(`none` when filtered out of the parent), the log of field errors, and
the collected reask markers. -/
structure FieldResult where
  value? : Option Value
  logs : List (Path × Str)
  reasks : List Reask

/-- Declared schema field with name `k`, if any. -/
def findField (fields : List SchemaNode) (k : Str) : Option SchemaNode :=
  fields.find? (fun f => f.nodeName = k)

/-- Modelled from the spec: one validation pass of the correction engine
over a subtree.  Every node first runs its own directives (structural
directives for containers) with first-failure-wins; a structural reask
flags the whole subtree; `filter` removes the value from its parent;
`exception` aborts the whole pass.  A valid container then recurses: an
object walks its keys in data order, validating those declared in the
schema and passing undeclared ones through; a list validates every
element against the element schema (an object with no declared fields or
a list with no element schema is passed through unvalidated). -/
def validateNode (net : Str → Bool) : SchemaNode → Path → Value →
    Except VErr FieldResult
  | s, path, v =>
    match (validateLeaf net s.nodeDirs v).1 with
    | .valid =>
      match s, v with
      | .listNode _ _ (some el), .vlist xs =>
        match goItems el path 0 xs with
        | .error e => .error e
        | .ok r => .ok ⟨some (.vlist r.1), r.2.1, r.2.2⟩
      | .objectNode _ _ (f :: fs), .vobj kvs =>
        match goFields (f :: fs) path kvs with
        | .error e => .error e
        | .ok r => .ok ⟨some (.vobj r.1), r.2.1, r.2.2⟩
      | _, v => .ok ⟨some v, [], []⟩
    | .invalidNoop m => .ok ⟨some v, [(path, m)], []⟩
    | .invalidFiltered m => .ok ⟨none, [(path, m)], []⟩
    | .invalidFixed f m => .ok ⟨some f, [(path, m)], []⟩
    | .invalidReask m => .ok ⟨some v, [(path, m)], [⟨path, v, m⟩]⟩
    | .invalidFatal m => .error ⟨path, m⟩
where
  goItems (el : SchemaNode) (path : Path) (i : Nat) : List Value →
      Except VErr (List Value × List (Path × Str) × List Reask)
    | [] => .ok ([], [], [])
    | x :: rest =>
      match validateNode net el (path ++ [natToStr i]) x with
      | .error e => .error e
      | .ok r =>
        match goItems el path (i + 1) rest with
        | .error e => .error e
        | .ok rs =>
          match r.value? with
          | some out => .ok (out :: rs.1, r.logs ++ rs.2.1, r.reasks ++ rs.2.2)
          | none => .ok (rs.1, r.logs ++ rs.2.1, r.reasks ++ rs.2.2)
  goFields (fields : List SchemaNode) (path : Path) :
      List (Str × Value) →
      Except VErr (List (Str × Value) × List (Path × Str) × List Reask)
    | [] => .ok ([], [], [])
    | (k, v') :: rest =>
      match findField fields k with
      | none =>
        match goFields fields path rest with
        | .error e => .error e
        | .ok rs => .ok ((k, v') :: rs.1, rs.2.1, rs.2.2)
      | some f =>
        match validateNode net f (path ++ [k]) v' with
        | .error e => .error e
        | .ok r =>
          match goFields fields path rest with
          | .error e => .error e
          | .ok rs =>
            match r.value? with
            | some out =>
              .ok ((k, out) :: rs.1, r.logs ++ rs.2.1, r.reasks ++ rs.2.2)
            | none => .ok (rs.1, r.logs ++ rs.2.1, r.reasks ++ rs.2.2)

/-- Whether a string is the case-insensitive literal token `none`. -/
def isNoneToken (s : Str) : Bool := toLowerStr s = str "none"

/-- Decimal literal parse for float coercion: integer part, fractional
digits, fractional digit count. -/
def parseFloatStr (s : Str) : Option (Int × Nat × Nat) :=
  match splitOnChar '.' s with
  | [w] => (parseInt? w).map (fun n => (n, 0, 0))
  | [w, f] =>
    match parseInt? w, parseNat? f with
    | some n, some fr => some (n, fr, f.length)
    | _, _ => none
  | _ => none

/-- Leaf type coercion against the declared scalar kind.  Numeric strings
coerce to integer/float at integer/float-declared leaves (spec rule).  As
recorded in the notebook outputs, values that are already non-string
scalars pass through unchanged (integers remain integers at
string-declared and float-declared paths) and date strings stay strings. -/
def coerceScalar (kind : ScalarKind) (v : Value) : Value :=
  match kind, v with
  | .intK, .vstr s =>
    match parseInt? s with
    | some n => .vint n
    | none => .vstr s
  | .floatK, .vstr s =>
    match parseFloatStr s with
    | some wf => .vfloat wf.1 wf.2.1 wf.2.2
    | none => .vstr s
  | _, v => v

/-- Modelled from the spec and the recorded outputs: the output decoder's
walk over an already-parsed value tree.  The literal case-insensitive
token `none` triggers a reask at a required leaf; at a non-required leaf
it is kept verbatim (the recorded final outputs retain the literal string
`'none'`).  Other leaves are coerced against the declared kind. -/
def decodeNode : SchemaNode → Path → Value → Value × List Reask
  | .scalar k _ req _, path, .vstr s =>
    if isNoneToken s then
      if req then
        (.vstr s, [⟨path, .vstr s, str "unspecified required value"⟩])
      else (.vstr s, [])
    else (coerceScalar k (.vstr s), [])
  | .listNode _ _ (some el), path, .vlist xs =>
    let r := goItems el path 0 xs
    (.vlist r.1, r.2)
  | .objectNode _ _ (f :: fs), path, .vobj kvs =>
    let r := goFields (f :: fs) path kvs
    (.vobj r.1, r.2)
  | _, _, v => (v, [])
where
  goItems (el : SchemaNode) (path : Path) (i : Nat) :
      List Value → List Value × List Reask
    | [] => ([], [])
    | x :: rest =>
      let r := decodeNode el (path ++ [natToStr i]) x
      let rs := goItems el path (i + 1) rest
      (r.1 :: rs.1, r.2 ++ rs.2)
  goFields (fields : List SchemaNode) (path : Path) :
      List (Str × Value) → List (Str × Value) × List Reask
    | [] => ([], [])
    | (k, v') :: rest =>
      let rs := goFields fields path rest
      match findField fields k with
      | none => ((k, v') :: rs.1, rs.2)
      | some f =>
        let r := decodeNode f (path ++ [k]) v'
        ((k, r.1) :: rs.1, r.2 ++ rs.2)

/-- Schema node at a path. -/
def schemaAt : SchemaNode → Path → Option SchemaNode
  | s, [] => some s
  | .objectNode _ _ fields, k :: rest => goF fields k rest
  | .listNode _ _ (some el), k :: rest =>
    if (parseNat? k).isSome then schemaAt el rest else none
  | _, _ :: _ => none
where
  goF : List SchemaNode → Str → Path → Option SchemaNode
    | [], _, _ => none
    | f :: fs, k, p =>
      if f.nodeName = k then schemaAt f p else goF fs k p

/-- Modelled from the spec: handle one reask marker against the reask
round's response.  The response value at the marker's path is decoded and
re-validated against the field's schema; a corrected value is merged into
the prior result at the original path; a field absent from the response
stays in the batch (its last invalid value is already in the result). -/
def processMarker (net : Str → Bool) (root : SchemaNode) (resp : Value)
    (cur : Value) (m : Reask) : Except VErr (Value × List Reask) :=
  match valueAt m.path resp, schemaAt root m.path with
  | some nv, some node =>
    let d := decodeNode node m.path nv
    match validateNode net node m.path d.1 with
    | .error e => .error e
    | .ok r =>
      match r.value? with
      | some out => .ok (setAt m.path out cur, d.2 ++ r.reasks)
      | none => .ok (cur, d.2 ++ r.reasks)
  | _, _ => .ok (cur, [m])

/-- Modelled from the spec: one reask round, processing every marker of
the batch against the round's response. -/
def mergeRound (net : Str → Bool) (root : SchemaNode) (resp : Value)
    (cur : Value) : List Reask → Except VErr (Value × List Reask)
  | [] => .ok (cur, [])
  | m :: ms =>
    match processMarker net root resp cur m with
    | .error e => .error e
    | .ok r =>
      match mergeRound net root resp r.1 ms with
      | .error e => .error e
      | .ok r' => .ok (r'.1, r.2 ++ r'.2)

/-- Modelled from the spec: the bounded reask loop.  `fuel` is the
remaining retry budget; when it is exhausted with a non-empty batch the
current result is returned as-is (fields still marked for reask are
finalized best-effort, keeping their last invalid values) together with
the leftover markers.  Returns the final value, the number of reask
rounds performed, and the leftover batch. -/
def guardLoopAux (net : Str → Bool) (gen : Nat → Value)
    (root : SchemaNode) : Nat → Nat → Value → List Reask →
    Except VErr (Value × Nat × List Reask)
  | 0, _, cur, batch => .ok (cur, 0, batch)
  | fuel + 1, round, cur, batch =>
    if batch.isEmpty then .ok (cur, 0, [])
    else
      match mergeRound net root (gen round) cur batch with
      | .error e => .error e
      | .ok r =>
        match guardLoopAux net gen root fuel (round + 1) r.1 r.2 with
        | .error e => .error e
        | .ok out => .ok (out.1, out.2.1 + 1, out.2.2)

/-- Modelled from the spec: a full Guard invocation.  `gen round` is the
caller-supplied generation function's decoded output for that round
(round `0` answers the initial prompt, later rounds answer reask
prompts); `budget` is the retry budget.  Returns the final merged value,
the number of reask rounds consumed, and any fields still invalid at
exhaustion. -/
def guardCall (net : Str → Bool) (gen : Nat → Value) (root : SchemaNode)
    (budget : Nat) : Except VErr (Value × Nat × List Reask) :=
  let d := decodeNode root [] (gen 0)
  match validateNode net root [] d.1 with
  | .error e => .error e
  | .ok r =>
    guardLoopAux net gen root budget 1 (r.value?.getD .vabsent)
      (d.2 ++ r.reasks)

/-- A piece of a prompt skeleton, as recognized by the prompt compiler:
literal text, the output-schema placeholder, a named variable
placeholder, or a named `@`-token expanding to a fixed boilerplate
block. -/
inductive PromptPiece where
  | text (s : Str)
  | schemaSlot
  | varSlot (name : Str)
  | atSlot (name : Str)
deriving DecidableEq

/-- Modelled from the recorded base prompts: the fixed instructional
boilerplate block each recognized `@`-token expands to. -/
def atText (n : Str) : Str :=
  if n = str "xml_prefix_prompt" then
    str "Given below is XML that describes the information to extract from this document and the tags to extract it into."
  else if n = str "json_suffix_prompt_v2_wo_none" then
    str "ONLY return a valid JSON object (no other text is necessary). The JSON MUST conform to the XML format, including any types and format requests e.g. requests for lists, objects and specific types. Be correct and concise.\n\nJSON Output:"
  else if n = str "complete_json_suffix" then
    str "ONLY return a valid JSON object (no other text is necessary), where the key of the field in JSON is the `name` attribute of the corresponding XML, and the value is of the type specified by the corresponding XML's tag."
  else []

/-- Opening brace character of a rendered placeholder. -/
def lbrace : Str := [Char.ofNat 123]

/-- Closing brace character of a rendered placeholder. -/
def rbrace : Str := [Char.ofNat 125]

/-- Render one prompt piece back to text, placeholders kept as written. -/
def renderPiece : PromptPiece → Str
  | .text s => s
  | .schemaSlot => lbrace ++ str "output_schema" ++ rbrace
  | .varSlot v => lbrace ++ v ++ rbrace
  | .atSlot a => '@' :: a

/-- Render a prompt to text. -/
def renderPieces (ps : List PromptPiece) : Str :=
  (ps.map renderPiece).flatten

/-- Modelled from the spec: Guard-construction-time compilation of one
prompt piece.  The output-schema placeholder becomes the serialized
schema text, `@`-tokens become their boilerplate blocks, and literal text
and named variable placeholders are left in place. -/
def compilePiece (schemaText : Str) : PromptPiece → PromptPiece
  | .schemaSlot => .text schemaText
  | .atSlot a => .text (atText a)
  | p => p

/-- Modelled from the spec: the compiled prompt skeleton of a Guard. -/
def compileSkeleton (schemaText : Str) (skel : List PromptPiece) :
    List PromptPiece :=
  skel.map (compilePiece schemaText)

/-- Invocation-time substitution of caller-supplied prompt parameters into
one piece: a variable placeholder with a binding becomes text; everything
else is untouched. -/
def substVar (params : Str → Option Str) : PromptPiece → PromptPiece
  | .varSlot v =>
    match params v with
    | some s => .text s
    | none => .varSlot v
  | p => p

/-- Named variable placeholders of a prompt, in order. -/
def varsOf : List PromptPiece → List Str
  | [] => []
  | .varSlot v :: r => v :: varsOf r
  | _ :: r => varsOf r

/-- A piece is resolved when it is neither the output-schema placeholder
nor an unexpanded `@`-token. -/
def isResolved : PromptPiece → Bool
  | .schemaSlot => false
  | .atSlot _ => false
  | _ => true

/-- Spec-side description of the compiled prompt text, written directly
from the spec's words: the prompt skeleton text with the output-schema
token replaced by the serialized schema, each `@`-token replaced by its
boilerplate block, and named variable placeholders left in place. -/
def specCompiledText (schemaText : Str) : List PromptPiece → Str
  | [] => []
  | .text s :: r => s ++ specCompiledText schemaText r
  | .schemaSlot :: r => schemaText ++ specCompiledText schemaText r
  | .varSlot v :: r =>
    lbrace ++ v ++ rbrace ++ specCompiledText schemaText r
  | .atSlot a :: r => atText a ++ specCompiledText schemaText r

/-- The base prompt of a Guard: its skeleton compiled against the cleaned,
serialized output element. -/
def basePrompt (outputEl : RawElement) (skel : List PromptPiece) : Str :=
  renderPieces (compileSkeleton (promptSchemaText outputEl) skel)

/-- Claim-side predicate (C6 formalization): whether a value has the
declared scalar kind. -/
def kindMatches : ScalarKind → Value → Bool
  | .strK, .vstr _ => true
  | .intK, .vint _ => true
  | .floatK, .vfloat _ _ _ => true
  | .boolK, .vbool _ => true
  | .dateK, .vdate _ _ _ => true
  | .urlK, .vstr _ => true
  | _, .vabsent => true
  | _, _ => false

/-- Claim-side predicate (C6 formalization): every scalar leaf of the
value tree has the scalar kind declared by the corresponding schema node;
undeclared keys and structurally-mismatched subtrees are not
constrained. -/
def kindConforms : SchemaNode → Value → Bool
  | .scalar k _ _ _, v => kindMatches k v
  | .listNode _ _ (some el), .vlist xs => goItems el xs
  | .objectNode _ _ (f :: fs), .vobj kvs => goFields (f :: fs) kvs
  | _, _ => true
where
  goItems (el : SchemaNode) : List Value → Bool
    | [] => true
    | x :: rest => kindConforms el x && goItems el rest
  goFields (fields : List SchemaNode) : List (Str × Value) → Bool
    | [] => true
    | (k, v') :: rest =>
      (match findField fields k with
       | some f => kindConforms f v'
       | none => true) && goFields fields rest

/-- Claim-side predicate (C5 formalization): the literal case-insensitive
token `none` does not appear as the value of any non-required scalar
field of the final result. -/
def noneElided : SchemaNode → Value → Bool
  | .scalar _ _ req _, .vstr s => req || !(isNoneToken s)
  | .scalar _ _ _ _, _ => true
  | .listNode _ _ (some el), .vlist xs => goItems el xs
  | .objectNode _ _ (f :: fs), .vobj kvs => goFields (f :: fs) kvs
  | _, _ => true
where
  goItems (el : SchemaNode) : List Value → Bool
    | [] => true
    | x :: rest => noneElided el x && goItems el rest
  goFields (fields : List SchemaNode) : List (Str × Value) → Bool
    | [] => true
    | (k, v') :: rest =>
      (match findField fields k with
       | some f => noneElided f v'
       | none => true) && goFields fields rest

/-- Transcribed from docs/getting_started.ipynb: the output element of the
reask variant of the bank-run RAIL spec (`on-fail-length="reask"` on the
explanation, `on-fail-valid-url="filter"` on the url). -/
def bankRunOutputEl : RawElement :=
  .mk .objectT [] [
    .mk .objectT [(str "name", str "bank_run"),
      (str "format", str "length: 2")] [
      .mk .stringT [(str "name", str "explanation"),
        (str "description", str "A paragraph about what a bank run is."),
        (str "format", str "length: 200 240"),
        (str "on-fail-length", str "reask")] [],
      .mk .urlT [(str "name", str "follow_up_url"),
        (str "description",
          str "A web URL where I can read more about bank runs."),
        (str "required", str "true"),
        (str "format", str "valid-url"),
        (str "on-fail-valid-url", str "filter")] []]]

/-- The compiled bank-run schema. -/
def bankRunSchema : SchemaNode := compileElement builtinRegistry bankRunOutputEl

/-- A round-1 explanation of length 125 (invalid for bounds 200-240). -/
def c1Expl1 : Str := List.replicate 125 'a'

/-- A round-2 explanation of length 207 (valid for bounds 200-240). -/
def c1Expl2 : Str := List.replicate 207 'a'

/-- The reachable URL recorded in docs/getting_started.ipynb. -/
def c1Url : Str := str "https://www.investopedia.com/terms/b/bankrun.asp"

/-- Round-1 generation output: invalid-length explanation, valid URL. -/
def c1Round1 : Value :=
  .vobj [(str "bank_run", .vobj [(str "explanation", .vstr c1Expl1),
    (str "follow_up_url", .vstr c1Url)])]

/-- Round-2 (reask) generation output: the corrected explanation only. -/
def c1Round2 : Value :=
  .vobj [(str "bank_run", .vobj [(str "explanation", .vstr c1Expl2)])]

/-- The generation function of the scenario: round 0 yields the full
first answer, the reask round yields the corrected explanation. -/
def c1Gen : Nat → Value := fun r => if r = 0 then c1Round1 else c1Round2

/-- URL reachability oracle of the scenario: the URL is reachable. -/
def c1Net : Str → Bool := fun _ => true

/-- The expected merged result: round-2 explanation at its original path,
round-1 URL untouched. -/
def c1Final : Value :=
  .vobj [(str "bank_run", .vobj [(str "explanation", .vstr c1Expl2),
    (str "follow_up_url", .vstr c1Url)])]

/-- Transcribed from docs/examples/extracting_entities.ipynb (shown
corpus part_000): the output element of the fees RAIL spec. -/
def feesOutputEl : RawElement :=
  .mk .objectT [] [
    .mk .listT [(str "name", str "fees"),
      (str "description",
        str "What fees and charges are associated with my account?")] [
      .mk .objectT [] [
        .mk .integerT [(str "name", str "index"),
          (str "format", str "1-indexed")] [],
        .mk .stringT [(str "name", str "name"),
          (str "format", str "lower-case; two-words"),
          (str "on-fail-lower-case", str "noop"),
          (str "on-fail-two-words", str "reask")] [],
        .mk .stringT [(str "name", str "explanation"),
          (str "format", str "one-line"),
          (str "on-fail-one-line", str "noop")] [],
        .mk .floatT [(str "name", str "value"),
          (str "format", str "percentage")] []]],
    .mk .objectT [(str "name", str "interest_rates"),
      (str "description",
        str "What are the interest rates offered by the bank on savings and checking accounts, loans, and credit products?")] []]

/-- The compiled fees schema. -/
def feesSchema : SchemaNode := compileElement builtinRegistry feesOutputEl

/-- Transcribed from the recorded `validated_response` of
docs/examples/extracting_entities.ipynb: the final returned dictionary.
Note the literal string `'none'` retained at several non-required
`explanation` fields, and integer values at the float-declared `value`
field. -/
def validatedFees : Value :=
  .vobj [
    (str "fees", .vlist [
      .vobj [(str "index", .vint 1),
        (str "name", .vstr (str "annual membership")),
        (str "explanation", .vstr (str "none")),
        (str "value", .vint 0)],
      .vobj [(str "index", .vint 2),
        (str "name", .vstr (str "fee one")),
        (str "explanation", .vstr (str "monthly fee of 0% of the amount of each eligible purchase transaction or amount selected to create a My Chase Plan while in the 0% Intro Purchase APR period. After that, monthly fee of 1.72% of the amount of each eligible purchase transaction or amount selected to create a My Chase Plan.")),
        (str "value", .vfloat 1 72 2)],
      .vobj [(str "index", .vint 3),
        (str "name", .vstr (str "balance transfers")),
        (str "explanation", .vstr (str "intro fee of either $5 or 3% of the amount of each transfer, whichever is greater, on transfers made within 60 days of account opening. After that: Either $5 or 5% of the amount of each transfer, whichever is greater.")),
        (str "value", .vint 5)],
      .vobj [(str "index", .vint 4),
        (str "name", .vstr (str "cash advances")),
        (str "explanation", .vstr (str "either $10 or 5% of the amount of each transaction, whichever is greater.")),
        (str "value", .vint 5)],
      .vobj [(str "index", .vint 5),
        (str "name", .vstr (str "foreign transactions")),
        (str "explanation", .vstr (str "3% of the amount of each transaction in U.S. dollars.")),
        (str "value", .vint 3)],
      .vobj [(str "index", .vint 6),
        (str "name", .vstr (str "late payment")),
        (str "explanation", .vstr (str "up to $40.")),
        (str "value", .vint 0)],
      .vobj [(str "index", .vint 7),
        (str "name", .vstr (str "fee two")),
        (str "explanation", .vstr (str "none")),
        (str "value", .vint 0)],
      .vobj [(str "index", .vint 8),
        (str "name", .vstr (str "return payment")),
        (str "explanation", .vstr (str "up to $40.")),
        (str "value", .vint 0)],
      .vobj [(str "index", .vint 9),
        (str "name", .vstr (str "return check")),
        (str "explanation", .vstr (str "none")),
        (str "value", .vint 0)]]),
    (str "interest_rates", .vobj [
      (str "purchase", .vobj [(str "apr", .vint 0),
        (str "explanation", .vstr (str "0% Intro APR for the first 18 months that your Account is open. After that, 19.49%. This APR will vary with the market based on the Prime Rate."))]),
      (str "my_chase_loan", .vobj [(str "apr", .vfloat 19 49 2),
        (str "explanation", .vstr (str "19.49%. This APR will vary with the market based on the Prime Rate."))]),
      (str "balance_transfer", .vobj [(str "apr", .vint 0),
        (str "explanation", .vstr (str "0% Intro APR for the first 18 months that your Account is open. After that, 19.49%. This APR will vary with the market based on the Prime Rate."))]),
      (str "cash_advance", .vobj [(str "apr", .vfloat 29 49 2),
        (str "explanation", .vstr (str "29.49%. This APR will vary with the market based on the Prime Rate."))]),
      (str "penalty", .vobj [(str "apr", .vfloat 29 99 2),
        (str "explanation", .vstr (str "Up to 29.99%. This APR will vary with the market based on the Prime Rate."))]),
      (str "prime_rate", .vfloat 7 75 2)])]

/-- Transcribed from docs/examples/generate_structured_data.ipynb (shown
corpus part_000): the output element of the user-orders RAIL spec.  Note
`user_id` is declared `string`. -/
def userOrdersOutputEl : RawElement :=
  .mk .objectT [] [
    .mk .listT [(str "name", str "user_orders"),
      (str "description",
        str "Generate a list of user, and how many orders they have placed in the past."),
      (str "format", str "length: 10 10"),
      (str "on-fail-length", str "noop")] [
      .mk .objectT [] [
        .mk .stringT [(str "name", str "user_id"),
          (str "description", str "The user\x27s id."),
          (str "format", str "1-indexed")] [],
        .mk .stringT [(str "name", str "user_name"),
          (str "description", str "The user\x27s first name and last name"),
          (str "format", str "two-words")] [],
        .mk .integerT [(str "name", str "num_orders"),
          (str "description",
            str "The number of orders the user has placed"),
          (str "format", str "valid-range: 0 50")] [],
        .mk .dateT [(str "name", str "last_order_date"),
          (str "description", str "Date of last order")] []]]]

/-- The compiled user-orders schema. -/
def userOrdersSchema : SchemaNode :=
  compileElement builtinRegistry userOrdersOutputEl

/-- One transcribed row of the recorded `validated_response` of
docs/examples/generate_structured_data.ipynb. -/
def userOrderRow (uid : Int) (uname : String) (orders : Int)
    (date : String) : Value :=
  .vobj [(str "user_id", .vint uid),
    (str "user_name", .vstr (str uname)),
    (str "num_orders", .vint orders),
    (str "last_order_date", .vstr (str date))]

/-- Transcribed from the recorded `validated_response` of
docs/examples/generate_structured_data.ipynb: the final returned
dictionary.  Note the integer values at the string-declared `user_id`
field and the undecoded date strings at the date-declared field. -/
def validatedUserOrders : Value :=
  .vobj [(str "user_orders", .vlist [
    userOrderRow 1 "John Smith" 10 "2020-05-01",
    userOrderRow 2 "Jane Doe" 15 "2020-04-15",
    userOrderRow 3 "James Johnson" 20 "2020-03-30",
    userOrderRow 4 "Mary Williams" 25 "2020-03-15",
    userOrderRow 5 "Robert Brown" 30 "2020-02-28",
    userOrderRow 6 "Michael Miller" 35 "2020-02-15",
    userOrderRow 7 "Linda Davis" 40 "2020-01-31",
    userOrderRow 8 "William Anderson" 45 "2020-01-15",
    userOrderRow 9 "David Taylor" 48 "2019-12-31",
    userOrderRow 10 "Joseph Thomas" 50 "2019-12-15"])]

/-- Transcribed from docs/getting_started.ipynb: the prompt skeleton of
the bank-run RAIL spec, in parsed placeholder form. -/
def bankRunSkeleton : List PromptPiece :=
  [.text (str "\nExplain what a bank run is in a tweet.\n\n"),
   .atSlot (str "xml_prefix_prompt"),
   .text (str "\n\n"),
   .schemaSlot,
   .text (str "\n\n"),
   .atSlot (str "json_suffix_prompt_v2_wo_none"),
   .text (str "\n")]

/-- Every validator name in the evaluation trace of `firstFail` names one
of the directives it was given. -/
lemma firstFail_trace_mem (net : Str → Bool) (v : Value) :
    ∀ (dirs : List Directive) (nm : Str),
      nm ∈ (firstFail net v dirs).2 → ∃ d ∈ dirs, d.name = nm := by
  intro dirs
  induction dirs with
  | nil => intro nm h; simp [firstFail] at h
  | cons d ds ih =>
    intro nm h
    by_cases hd : runValidator net d v
    · simp [firstFail, hd] at h
      rcases h with h | h
      · exact ⟨d, List.mem_cons_self d ds, h.symm⟩
      · obtain ⟨d', hd', hn⟩ := ih nm h
        exact ⟨d', List.mem_cons_of_mem d hd', hn⟩
    · simp [firstFail, hd] at h
      exact ⟨d, List.mem_cons_self d ds, h.symm⟩

/-- When every directive of `pre` passes and `d` fails, `firstFail` stops
at `d` having evaluated exactly `pre`'s validators and `d`'s. -/
lemma firstFail_first_failure (net : Str → Bool) (v : Value)
    (d : Directive) (h2 : runValidator net d v = false) :
    ∀ (pre post : List Directive),
      (∀ d' ∈ pre, runValidator net d' v = true) →
      firstFail net v (pre ++ d :: post) =
        (some d, pre.map Directive.name ++ [d.name]) := by
  intro pre
  induction pre with
  | nil => intro post _; simp [firstFail, h2]
  | cons p ps ih =>
    intro post h1
    have hp : runValidator net p v = true := h1 p (List.mem_cons_self p ps)
    have hr := ih post (fun d' hd' => h1 d' (List.mem_cons_of_mem p hd'))
    simp [firstFail, hp, hr]

/-- The cleaner's child walk is the map of the cleaner. -/
lemma cleanElement_children_map :
    ∀ cs : List RawElement, cleanElement.goChildren cs = cs.map cleanElement := by
  intro cs
  induction cs with
  | nil => simp [cleanElement.goChildren]
  | cons c r ih => simp [cleanElement.goChildren, ih]

/-- The reask loop performs at most `fuel` rounds. -/
lemma guardLoopAux_le (net : Str → Bool) (gen : Nat → Value)
    (root : SchemaNode) :
    ∀ (fuel round : Nat) (cur : Value) (batch : List Reask) (v : Value)
      (used : Nat) (left : List Reask),
      guardLoopAux net gen root fuel round cur batch = .ok (v, used, left) →
      used ≤ fuel := by
  intro fuel
  induction fuel with
  | zero =>
    intro round cur batch v used left h
    simp [guardLoopAux] at h
    omega
  | succ n ih =>
    intro round cur batch v used left h
    by_cases hb : batch.isEmpty
    · simp [guardLoopAux, hb] at h
      omega
    · simp only [guardLoopAux, hb, if_false, Bool.false_eq_true] at h
      split at h
      · simp at h
      · split at h
        · simp at h
        · rename_i x1 r hm x2 out ha
          obtain ⟨ov, ou, ol⟩ := out
          simp at h
          have hle := ih _ r.1 r.2 ov ou ol ha
          omega

/-- C1: with the bank-run schema (explanation length in [200,240] with
on-fail reask, url with a reachability check and on-fail filter), a
round-1 output whose explanation has length 125 and whose URL is valid,
and a round-2 reask answer of length 207 for the explanation alone, the
Guard call returns the merged result holding the round-2 explanation at
its original path together with the round-1 URL, consuming exactly one
unit of retry budget. -/
theorem claimC1 :
    guardCall c1Net c1Gen bankRunSchema 1 = .ok (c1Final, 1, []) ∧
    c1Expl1.length = 125 ∧ c1Expl2.length = 207 ∧
    valueAt [str "bank_run", str "explanation"] c1Final =
      some (.vstr c1Expl2) ∧
    valueAt [str "bank_run", str "follow_up_url"] c1Final =
      some (.vstr c1Url) ∧
    valueAt [str "bank_run", str "follow_up_url"] c1Round1 =
      some (.vstr c1Url) :=
  ⟨rfl, rfl, rfl, rfl, rfl, rfl⟩

/-- C2: a format directive whose name is not registered for the element's
tag is dropped at compile time with a warning naming it; compilation
still succeeds, the compiled node carries only registered directives, and
no dropped directive is ever evaluated during validation (every validator
name in any evaluation trace over the compiled directives is
registered). -/
theorem claimC2 (reg : List (Str × Tag)) (t : Tag)
    (attrs : List (Str × Str)) :
    (∀ d ∈ compileDirectives reg t attrs, registered reg d.name t = true) ∧
    (∀ nd ∈ rawDirectives attrs, registered reg nd.1 t = false →
      (⟨nd.1, t⟩ : FormatterWarning) ∈ compileWarnings reg t attrs) ∧
    (∀ cs, (compileElement reg (.mk t attrs cs)).nodeDirs =
      compileDirectives reg t attrs) ∧
    (∀ (net : Str → Bool) (v : Value) (nm : Str),
      nm ∈ (firstFail net v (compileDirectives reg t attrs)).2 →
      registered reg nm t = true) := by
  have h1 : ∀ d ∈ compileDirectives reg t attrs,
      registered reg d.name t = true := by
    intro d hd
    obtain ⟨a, _, hfa⟩ := List.mem_filterMap.mp hd
    cases hr : registered reg a.1 t with
    | false => rw [hr] at hfa; simp at hfa
    | true =>
      rw [hr] at hfa
      simp at hfa
      rw [← hfa]
      exact hr
  refine ⟨h1, ?_, ?_, ?_⟩
  · intro nd hnd h
    exact List.mem_filterMap.mpr ⟨nd, hnd, by simp [h]⟩
  · intro cs
    cases t <;> simp [compileElement, SchemaNode.nodeDirs]
  · intro net v nm hnm
    obtain ⟨d, hd, hdn⟩ := firstFail_trace_mem net v _ nm hnm
    rw [← hdn]
    exact h1 d hd

/-- C2 witness: compiled against the built-in registry, the `1-indexed`
directive of the fees `index` integer element is warned about and
dropped. -/
theorem claimC2Witness :
    ((⟨str "1-indexed", .integerT⟩ : FormatterWarning) ∈
      compileWarnings builtinRegistry .integerT
        [(str "name", str "index"), (str "format", str "1-indexed")]) ∧
    (compileElement builtinRegistry
        (.mk .integerT [(str "name", str "index"),
          (str "format", str "1-indexed")] [])).nodeDirs =
      compileDirectives builtinRegistry .integerT
        [(str "name", str "index"), (str "format", str "1-indexed")] :=
  ⟨(claimC2 builtinRegistry .integerT _).2.1 (str "1-indexed", [])
      (by decide) (by decide),
   (claimC2 builtinRegistry .integerT _).2.2.1 []⟩

/-- C3: a string field carrying a length-bounds directive with on-fail
`noop` whose value violates the bounds is returned unchanged at the
field's path, with the failure only logged and nothing reasked. -/
theorem claimC3 (net : Str → Bool) (k : ScalarKind) (nm : Str) (req : Bool)
    (ps : List Str) (path : Path) (s : Str)
    (h : lengthOk ps s.length = false) :
    validateNode net (.scalar k nm req [⟨str "length", ps, .noop⟩]) path
      (.vstr s) =
    .ok ⟨some (.vstr s), [(path, errMsg ⟨str "length", ps, .noop⟩)], []⟩ := by
  simp [validateNode, validateLeaf, firstFail, runValidator,
    SchemaNode.nodeDirs, applyAction, h]

/-- C3 witness: the length-125 explanation against bounds [200,240]. -/
theorem claimC3Witness :
    lengthOk [str "200", str "240"] c1Expl1.length = false ∧
    validateNode c1Net
      (.scalar .strK (str "explanation") false
        [⟨str "length", [str "200", str "240"], .noop⟩])
      [str "bank_run", str "explanation"] (.vstr c1Expl1) =
    .ok ⟨some (.vstr c1Expl1),
      [([str "bank_run", str "explanation"],
        errMsg ⟨str "length", [str "200", str "240"], .noop⟩)], []⟩ :=
  ⟨rfl, claimC3 c1Net .strK (str "explanation") false
    [str "200", str "240"] [str "bank_run", str "explanation"] c1Expl1 rfl⟩

/-- C4: a directive carrying no explicit `on-fail-<name>` attribute gets
the default action `exception`, and a failing directive with action
`exception` aborts the whole validation pass with a fatal error naming
the field path — no partial result is returned. -/
theorem claimC4 :
    (∀ (attrs : List (Str × Str)) (n : Str),
      findAttr attrs (str "on-fail-" ++ n) = none →
      dirOnFail attrs n = .exception) ∧
    (∀ (net : Str → Bool) (k : ScalarKind) (nm : Str) (req : Bool)
      (d : Directive) (path : Path) (v : Value),
      d.onFail = .exception → runValidator net d v = false →
      validateNode net (.scalar k nm req [d]) path v =
        .error ⟨path, errMsg d⟩) := by
  constructor
  · intro attrs n h
    simp [dirOnFail, h]
  · intro net k nm req d path v h1 h2
    simp [validateNode, validateLeaf, firstFail, SchemaNode.nodeDirs,
      applyAction, h1, h2]

/-- C4 witness: the bank-run object's `length` directive has no
`on-fail-length` attribute and so defaults to `exception`; a failing
length directive with action `exception` aborts the pass. -/
theorem claimC4Witness :
    dirOnFail [(str "name", str "bank_run"), (str "format", str "length: 2")]
      (str "length") = .exception ∧
    validateNode c1Net
      (.scalar .strK (str "explanation") false
        [⟨str "length", [str "200", str "240"], .exception⟩]) [] (.vstr c1Expl1) =
      .error ⟨[], errMsg ⟨str "length", [str "200", str "240"], .exception⟩⟩ :=
  ⟨claimC4.1 _ (str "length") rfl,
   claimC4.2 c1Net .strK (str "explanation") false
     ⟨str "length", [str "200", str "240"], .exception⟩ [] (.vstr c1Expl1)
     rfl rfl⟩

/-- C5 counterexample: in the recorded fees result the non-required
`explanation` field of the first fees entry holds the literal string
`'none'` — the decoder did not replace it with an absent-value marker,
so the literal token does appear in the final result. -/
theorem claimC5Counterexample :
    noneElided feesSchema validatedFees = false ∧
    schemaAt feesSchema [str "fees", str "0", str "explanation"] =
      some (.scalar .strK (str "explanation") false
        [⟨str "one-line", [], .noop⟩]) ∧
    valueAt [str "fees", str "0", str "explanation"] validatedFees =
      some (.vstr (str "none")) :=
  ⟨rfl, rfl, rfl⟩

/-- C5 (amended): a decoded leaf equal to the case-insensitive literal
token `none` is kept verbatim as the field's string value when the field
is not required (it is not replaced by an absent-value marker and can
appear in the final result), and triggers a reask for the field when the
field is required. -/
theorem claimC5 :
    (∀ (k : ScalarKind) (nm : Str) (dirs : List Directive) (path : Path)
      (s : Str), isNoneToken s = true →
      decodeNode (.scalar k nm false dirs) path (.vstr s) = (.vstr s, [])) ∧
    (∀ (k : ScalarKind) (nm : Str) (dirs : List Directive) (path : Path)
      (s : Str), isNoneToken s = true →
      decodeNode (.scalar k nm true dirs) path (.vstr s) =
        (.vstr s,
          [⟨path, .vstr s, str "unspecified required value"⟩])) := by
  constructor
  · intro k nm dirs path s h
    simp [decodeNode, h]
  · intro k nm dirs path s h
    simp [decodeNode, h]

/-- C5 witness: the literal token `None` at a non-required and at a
required explanation leaf. -/
theorem claimC5Witness :
    isNoneToken (str "None") = true ∧
    decodeNode (.scalar .strK (str "explanation") false []) [str "explanation"]
      (.vstr (str "None")) = (.vstr (str "None"), []) ∧
    decodeNode (.scalar .strK (str "explanation") true []) [str "explanation"]
      (.vstr (str "None")) =
      (.vstr (str "None"),
        [⟨[str "explanation"], .vstr (str "None"),
          str "unspecified required value"⟩]) :=
  ⟨rfl,
   claimC5.1 .strK (str "explanation") [] [str "explanation"] (str "None") rfl,
   claimC5.2 .strK (str "explanation") [] [str "explanation"] (str "None") rfl⟩

/-- C6 counterexample: in the recorded user-orders result the leaf at
path `user_orders[0].user_id` — declared `string` in the schema — holds
the integer `1`, so not every scalar leaf of the final tree has its
declared kind. -/
theorem claimC6Counterexample :
    kindConforms userOrdersSchema validatedUserOrders = false ∧
    schemaAt userOrdersSchema [str "user_orders", str "0", str "user_id"] =
      some (.scalar .strK (str "user_id") false
        [⟨str "1-indexed", [], .exception⟩]) ∧
    valueAt [str "user_orders", str "0", str "user_id"] validatedUserOrders =
      some (.vint 1) :=
  ⟨rfl, rfl, rfl⟩

/-- C6 (amended): the decoder coerces numeric strings to the declared
integer kind, but a value that is already a non-string scalar is passed
through unchanged, so a leaf at a string-declared path may hold a
non-string value (e.g. an integer). -/
theorem claimC6 :
    (∀ (s : Str) (n : Int), parseInt? s = some n →
      coerceScalar .intK (.vstr s) = .vint n) ∧
    (∀ (k : ScalarKind) (n : Int), coerceScalar k (.vint n) = .vint n) ∧
    (∀ (nm : Str) (req : Bool) (dirs : List Directive) (path : Path)
      (n : Int),
      decodeNode (.scalar .strK nm req dirs) path (.vint n) =
        (.vint n, [])) := by
  refine ⟨?_, ?_, ?_⟩
  · intro s n h
    simp [coerceScalar, h]
  · intro k n
    cases k <;> rfl
  · intro nm req dirs path n
    rfl

/-- C6 witness: the numeric string `"7"` coerces to the integer 7 at an
integer-declared leaf, while the integer 1 stays an integer at the
string-declared `user_id` leaf. -/
theorem claimC6Witness :
    parseInt? (str "7") = some 7 ∧
    coerceScalar .intK (.vstr (str "7")) = .vint 7 ∧
    coerceScalar .strK (.vint 1) = .vint 1 ∧
    decodeNode (.scalar .strK (str "user_id") false []) [str "user_id"]
      (.vint 1) = (.vint 1, []) :=
  ⟨rfl, claimC6.1 (str "7") 7 rfl, claimC6.2.1 .strK 1,
   claimC6.2.2 (str "user_id") false [] [str "user_id"] 1⟩

/-- Compilation and invocation-time variable substitution commute on one
prompt piece. -/
lemma substVar_compilePiece (params : Str → Option Str) (st : Str) :
    ∀ p : PromptPiece,
      substVar params (compilePiece st p) =
        compilePiece st (substVar params p) := by
  intro p
  cases p with
  | varSlot v => cases hp : params v <;> simp [substVar, compilePiece, hp]
  | _ => simp [substVar, compilePiece]

/-- C7: compiling a prompt skeleton replaces the output-schema
placeholder with the serialized schema text and every `@`-token with its
fixed boilerplate block, while leaving every named variable placeholder
in place: the compiled prompt has exactly the skeleton's variable
placeholders, contains no unresolved token, renders to the text the spec
describes, and substituting caller parameters after compilation equals
substituting them before. -/
theorem claimC7 (st : Str) (skel : List PromptPiece) :
    varsOf (compileSkeleton st skel) = varsOf skel ∧
    (∀ p ∈ compileSkeleton st skel, isResolved p = true) ∧
    renderPieces (compileSkeleton st skel) = specCompiledText st skel ∧
    (∀ params : Str → Option Str,
      (compileSkeleton st skel).map (substVar params) =
        compileSkeleton st (skel.map (substVar params))) := by
  refine ⟨?_, ?_, ?_, ?_⟩
  · induction skel with
    | nil => rfl
    | cons p r ih =>
      cases p <;> simp [compileSkeleton, compilePiece, varsOf] <;>
        simpa [compileSkeleton] using ih
  · induction skel with
    | nil => intro p hp; simp [compileSkeleton] at hp
    | cons q r ih =>
      intro p hp
      simp only [compileSkeleton, List.map_cons, List.mem_cons] at hp
      rcases hp with hp | hp
      · cases q <;> simp [hp, compilePiece, isResolved]
      · exact ih p (by simpa [compileSkeleton] using hp)
  · induction skel with
    | nil => rfl
    | cons p r ih =>
      cases p <;>
        simp [compileSkeleton, compilePiece, renderPieces, renderPiece,
          specCompiledText] <;>
        simpa [compileSkeleton, renderPieces] using ih
  · intro params
    simp only [compileSkeleton, List.map_map]
    exact List.map_congr_left (fun p _ => substVar_compilePiece params st p)

/-- C7 witness: the bank-run skeleton compiled against the serialized
bank-run schema keeps its variable placeholders, and the piece the
xml-prefix token compiled to is resolved. -/
theorem claimC7Witness :
    varsOf (compileSkeleton (promptSchemaText bankRunOutputEl)
      bankRunSkeleton) = varsOf bankRunSkeleton ∧
    isResolved (PromptPiece.text (atText (str "xml_prefix_prompt"))) = true :=
  ⟨(claimC7 (promptSchemaText bankRunOutputEl) bankRunSkeleton).1,
   (claimC7 (promptSchemaText bankRunOutputEl) bankRunSkeleton).2.1
     (PromptPiece.text (atText (str "xml_prefix_prompt"))) (by decide)⟩

/-- C8: with two or more directives on one field, validation runs the
validators in declaration order and stops at the first failure: when
every directive of `pre` passes and `d` fails, the outcome is `d`'s
on-fail action with `d`'s single error message, the evaluated validators
are exactly `pre`'s and `d`'s, and the directives after `d` are never
consulted (any suffix gives the same result). -/
theorem claimC8 (net : Str → Bool) (v : Value) (pre : List Directive)
    (d : Directive) (post post' : List Directive)
    (h1 : ∀ d' ∈ pre, runValidator net d' v = true)
    (h2 : runValidator net d v = false) :
    validateLeaf net (pre ++ d :: post) v =
      (applyAction d v, pre.map Directive.name ++ [d.name]) ∧
    validateLeaf net (pre ++ d :: post) v =
      validateLeaf net (pre ++ d :: post') v := by
  have hf := firstFail_first_failure net v d h2 pre post h1
  have hf' := firstFail_first_failure net v d h2 pre post' h1
  constructor
  · simp [validateLeaf, hf]
  · simp [validateLeaf, hf, hf']

/-- C8 witness: on the fees `name` directives, the value
`"Annual Membership"` passes `two-words` but fails `lower-case`; with
the directives in that order only those two validators run and the
outcome is the lower-case directive's noop action. -/
theorem claimC8Witness :
    runValidator c1Net ⟨str "two-words", [], .reask⟩
      (.vstr (str "Annual Membership")) = true ∧
    runValidator c1Net ⟨str "lower-case", [], .noop⟩
      (.vstr (str "Annual Membership")) = false ∧
    validateLeaf c1Net
      [⟨str "two-words", [], .reask⟩, ⟨str "lower-case", [], .noop⟩]
      (.vstr (str "Annual Membership")) =
      (applyAction ⟨str "lower-case", [], .noop⟩
        (.vstr (str "Annual Membership")),
       [str "two-words", str "lower-case"]) :=
  ⟨rfl, rfl, by
    have h := (claimC8 c1Net (.vstr (str "Annual Membership"))
      [⟨str "two-words", [], .reask⟩] ⟨str "lower-case", [], .noop⟩ [] []
      (by intro d' hd'
          simp at hd'
          rw [hd']
          rfl)
      rfl).1
    simpa using h⟩

/-- C9: the reask loop is bounded — a Guard call performs at most
`budget` reask rounds — and when the budget hits zero with a non-empty
batch the loop finalizes instead of looping or raising: it returns the
current merged value unchanged (fields still marked for reask keep their
last invalid values) together with the leftover markers. -/
theorem claimC9 :
    (∀ (net : Str → Bool) (gen : Nat → Value) (root : SchemaNode)
      (budget : Nat) (v : Value) (used : Nat) (left : List Reask),
      guardCall net gen root budget = .ok (v, used, left) →
      used ≤ budget) ∧
    (∀ (net : Str → Bool) (gen : Nat → Value) (root : SchemaNode)
      (round : Nat) (cur : Value) (batch : List Reask),
      guardLoopAux net gen root 0 round cur batch = .ok (cur, 0, batch)) := by
  constructor
  · intro net gen root budget v used left h
    unfold guardCall at h
    dsimp only at h
    split at h
    · simp at h
    · exact guardLoopAux_le net gen root budget 1 _ _ v used left h
  · intro net gen root round cur batch
    rfl

/-- C9 witness: the bank-run scenario run with budget 0 exhausts
immediately: the invalid round-1 explanation is kept in the returned
result and reported as leftover, with 0 reask rounds used. -/
theorem claimC9Witness :
    guardCall c1Net c1Gen bankRunSchema 0 =
      .ok (c1Round1, 0,
        [⟨[str "bank_run", str "explanation"], .vstr c1Expl1,
          errMsg ⟨str "length", [str "200", str "240"], .reask⟩⟩]) ∧
    (0 : Nat) ≤ 0 :=
  ⟨rfl,
   claimC9.1 c1Net c1Gen bankRunSchema 0 c1Round1 0
     [⟨[str "bank_run", str "explanation"], .vstr c1Expl1,
       errMsg ⟨str "length", [str "200", str "240"], .reask⟩⟩] rfl⟩

/-- C10: the element tree spliced into the prompt preserves each
element's tag, keeps exactly the non-`on-fail` attributes (so `name`,
`description`, `format` and `required` survive) and recursively cleans
the children, while every `on-fail-<directive>` attribute is omitted —
corrective-action configuration is never shown to the generation
model. -/
theorem claimC10 (t : Tag) (attrs : List (Str × Str))
    (cs : List RawElement) :
    (cleanElement (.mk t attrs cs)).tag = t ∧
    (∀ k v : Str, (k, v) ∈ (cleanElement (.mk t attrs cs)).attrs ↔
      ((k, v) ∈ attrs ∧ isOnFailKey k = false)) ∧
    (cleanElement (.mk t attrs cs)).children = cs.map cleanElement ∧
    promptSchemaText (.mk t attrs cs) =
      serializeElement (cleanElement (.mk t attrs cs)) ∧
    isOnFailKey (str "name") = false ∧
    isOnFailKey (str "description") = false ∧
    isOnFailKey (str "format") = false ∧
    isOnFailKey (str "required") = false ∧
    isOnFailKey (str "on-fail-length") = true ∧
    isOnFailKey (str "on-fail-valid-url") = true := by
  refine ⟨rfl, ?_, ?_, rfl, rfl, rfl, rfl, rfl, rfl, rfl⟩
  · intro k v
    simp [cleanElement, RawElement.attrs, List.mem_filter]
  · simp [cleanElement, RawElement.children, cleanElement_children_map]

end Guardrails
